import Mathlib

/-!
Verification of the story-generation backend (src/main.py).

The core under specification is the scene-normalization block inside the
`generate_story` handler (lines 68-83 of main.py), together with the
handler-level error policies of `generate_story` and `generate_image`
and the startup environment check (lines 15-19).

External library calls are embedded as follows:
* Python's `json.loads` is modelled by an executable recursive-descent
  parser `json_loads` over the JSON grammar (objects, arrays, strings
  with escapes, numbers kept as their lexemes, `true`/`false`/`null`,
  plus Python's `NaN`/`Infinity` extensions).  A Python `dict` is an
  association list whose lookup takes the last binding of a key,
  matching dict construction from duplicate keys.
* `re.split` with pattern backslash-n, backslash-s star, backslash-n is
  modelled by `re_split_blank`: a leftmost scan where a match is a
  newline, a greedy run of whitespace that still ends in a newline, and
  that final newline.
* `str.strip` is modelled by `pyStrip` (ASCII whitespace).
* The two external AI collaborator calls are modelled by an
  `Except String String` argument: `Except.ok` carries the text / URL
  the SDK returned, `Except.error` the message of a raised exception.
-/

/-- JSON values as produced by `json.loads`.  Numbers are kept as their
source lexemes: no claim inspects numeric magnitudes, and this avoids
committing to a floating-point semantics. -/
inductive Json where
  | null : Json
  | bool : Bool → Json
  | num : String → Json
  | str : String → Json
  | arr : List Json → Json
  | obj : List (String × Json) → Json
deriving Repr

/-- Whitespace accepted between JSON tokens by `json.loads`. -/
def jsonWs (c : Char) : Bool :=
  c = ' ' || c = '\t' || c = '\n' || c = '\r'

/-- Drop leading JSON whitespace. -/
def skipWs (cs : List Char) : List Char := cs.dropWhile jsonWs

/-- Value of a hex digit, if the character is one. -/
def hexVal (c : Char) : Option Nat :=
  if '0' ≤ c ∧ c ≤ '9' then some (c.toNat - '0'.toNat)
  else if 'a' ≤ c ∧ c ≤ 'f' then some (c.toNat - 'a'.toNat + 10)
  else if 'A' ≤ c ∧ c ≤ 'F' then some (c.toNat - 'A'.toNat + 10)
  else none

/-- ASCII decimal digit test. -/
def isDigit (c : Char) : Bool := '0' ≤ c && c ≤ '9'

/-- Body of a JSON string after the opening quote: returns the decoded
string and the rest of the input after the closing quote.  Handles the
standard escapes and 4-hex-digit unicode escapes; unescaped control
characters are rejected, as in strict-mode `json.loads`. -/
def parseStringAux : Nat → List Char → List Char → Option (String × List Char)
  | 0, _, _ => none
  | Nat.succ fuel, acc, cs =>
    match cs with
    | [] => none
    | '"' :: rest => some (String.mk acc.reverse, rest)
    | '\\' :: esc :: rest =>
      if esc = '"' then parseStringAux fuel ('"' :: acc) rest
      else if esc = '\\' then parseStringAux fuel ('\\' :: acc) rest
      else if esc = '/' then parseStringAux fuel ('/' :: acc) rest
      else if esc = 'b' then parseStringAux fuel ('\x08' :: acc) rest
      else if esc = 'f' then parseStringAux fuel ('\x0c' :: acc) rest
      else if esc = 'n' then parseStringAux fuel ('\n' :: acc) rest
      else if esc = 'r' then parseStringAux fuel ('\r' :: acc) rest
      else if esc = 't' then parseStringAux fuel ('\t' :: acc) rest
      else if esc = 'u' then
        match rest with
        | h1 :: h2 :: h3 :: h4 :: rest2 =>
          match hexVal h1, hexVal h2, hexVal h3, hexVal h4 with
          | some a, some b, some c, some d =>
            parseStringAux fuel (Char.ofNat (((a * 16 + b) * 16 + c) * 16 + d) :: acc) rest2
          | _, _, _, _ => none
        | _ => none
      else none
    | c :: rest =>
      if c = '\\' then none
      else if c.toNat < 32 then none
      else parseStringAux fuel (c :: acc) rest

/-- Fractional part of a JSON number (optional; must have a digit). -/
def parseFrac (cs : List Char) : Option (List Char × List Char) :=
  match cs with
  | '.' :: t =>
    let p := t.span isDigit
    if p.1 = [] then none else some ('.' :: p.1, p.2)
  | _ => some ([], cs)

/-- Exponent part of a JSON number (optional; must have a digit). -/
def parseExp (cs : List Char) : Option (List Char × List Char) :=
  match cs with
  | c :: t =>
    if c = 'e' || c = 'E' then
      let sp : List Char × List Char :=
        match t with
        | s :: t2 => if s = '+' || s = '-' then ([s], t2) else ([], t)
        | [] => ([], t)
      let p := sp.2.span isDigit
      if p.1 = [] then none else some (c :: (sp.1 ++ p.1), p.2)
    else some ([], cs)
  | [] => some ([], cs)

/-- A JSON number: optional minus, integer part without leading zeros,
optional fraction, optional exponent.  Returns the lexeme. -/
def parseNumber (cs : List Char) : Option (String × List Char) :=
  let sp : List Char × List Char :=
    match cs with
    | '-' :: t => (['-'], t)
    | _ => ([], cs)
  match sp.2 with
  | [] => none
  | c :: t =>
    if c = '0' then
      match parseFrac t with
      | none => none
      | some fr =>
        match parseExp fr.2 with
        | none => none
        | some ex => some (String.mk (sp.1 ++ [c] ++ fr.1 ++ ex.1), ex.2)
    else if isDigit c then
      let ds := t.span isDigit
      match parseFrac ds.2 with
      | none => none
      | some fr =>
        match parseExp fr.2 with
        | none => none
        | some ex => some (String.mk (sp.1 ++ (c :: ds.1) ++ fr.1 ++ ex.1), ex.2)
    else none

mutual

/-- One JSON value at the head of the input (leading whitespace allowed);
returns the value and the unconsumed rest.  Fuel bounds recursion depth. -/
def parseValue : Nat → List Char → Option (Json × List Char)
  | 0, _ => none
  | Nat.succ fuel, cs =>
    match skipWs cs with
    | [] => none
    | c :: rest =>
      if c = '"' then
        match parseStringAux (rest.length + 1) [] rest with
        | some p => some (Json.str p.1, p.2)
        | none => none
      else if c = '[' then
        match skipWs rest with
        | ']' :: r2 => some (Json.arr [], r2)
        | r2 =>
          match parseElems fuel r2 [] with
          | some p => some (Json.arr p.1.reverse, p.2)
          | none => none
      else if c = '\x7b' then
        match skipWs rest with
        | '\x7d' :: r2 => some (Json.obj [], r2)
        | r2 =>
          match parseMembers fuel r2 [] with
          | some p => some (Json.obj p.1.reverse, p.2)
          | none => none
      else if c = 't' then
        match c :: rest with
        | 't' :: 'r' :: 'u' :: 'e' :: r => some (Json.bool true, r)
        | _ => none
      else if c = 'f' then
        match c :: rest with
        | 'f' :: 'a' :: 'l' :: 's' :: 'e' :: r => some (Json.bool false, r)
        | _ => none
      else if c = 'n' then
        match c :: rest with
        | 'n' :: 'u' :: 'l' :: 'l' :: r => some (Json.null, r)
        | _ => none
      else if c = 'N' then
        match c :: rest with
        | 'N' :: 'a' :: 'N' :: r => some (Json.num "NaN", r)
        | _ => none
      else if c = 'I' then
        match c :: rest with
        | 'I' :: 'n' :: 'f' :: 'i' :: 'n' :: 'i' :: 't' :: 'y' :: r => some (Json.num "Infinity", r)
        | _ => none
      else if c = '-' then
        match c :: rest with
        | '-' :: 'I' :: 'n' :: 'f' :: 'i' :: 'n' :: 'i' :: 't' :: 'y' :: r =>
          some (Json.num "-Infinity", r)
        | _ =>
          match parseNumber (c :: rest) with
          | some p => some (Json.num p.1, p.2)
          | none => none
      else
        match parseNumber (c :: rest) with
        | some p => some (Json.num p.1, p.2)
        | none => none

/-- Comma-separated array elements up to the closing bracket
(accumulator holds elements in reverse). -/
def parseElems : Nat → List Char → List Json → Option (List Json × List Char)
  | 0, _, _ => none
  | Nat.succ fuel, cs, acc =>
    match parseValue fuel cs with
    | none => none
    | some p =>
      match skipWs p.2 with
      | ',' :: r2 => parseElems fuel r2 (p.1 :: acc)
      | ']' :: r2 => some (p.1 :: acc, r2)
      | _ => none

/-- Comma-separated object members up to the closing brace
(accumulator holds members in reverse). -/
def parseMembers : Nat → List Char → List (String × Json) → Option (List (String × Json) × List Char)
  | 0, _, _ => none
  | Nat.succ fuel, cs, acc =>
    match skipWs cs with
    | '"' :: rest =>
      match parseStringAux (rest.length + 1) [] rest with
      | none => none
      | some kp =>
        match skipWs kp.2 with
        | ':' :: r2 =>
          match parseValue fuel r2 with
          | none => none
          | some vp =>
            match skipWs vp.2 with
            | ',' :: r4 => parseMembers fuel r4 ((kp.1, vp.1) :: acc)
            | '\x7d' :: r4 => some ((kp.1, vp.1) :: acc, r4)
            | _ => none
        | _ => none
    | _ => none

end

/-- Model of Python's `json.loads`: parse one JSON document; any
trailing non-whitespace (or any syntax error) makes the whole call
fail, which in Python raises `JSONDecodeError`. -/
def json_loads (s : String) : Option Json :=
  match parseValue (2 * s.data.length + 2) s.data with
  | some p => if skipWs p.2 = [] then some p.1 else none
  | none => none

/-- Lookup in a Python dict built from an association list of parsed
members: the last binding of a key wins, like repeated dict insertion. -/
def dictGet (ms : List (String × Json)) (key : String) : Option Json :=
  match ms with
  | [] => none
  | kv :: rest =>
    match dictGet rest key with
    | some r => some r
    | none => if kv.1 = key then some kv.2 else none

/-- Whitespace for Python's `str.strip` and the regex class backslash-s
(ASCII range: space, tab, newline, carriage return, vertical tab,
form feed). -/
def pyIsSpace (c : Char) : Bool :=
  c = ' ' || c = '\t' || c = '\n' || c = '\r' || c = '\x0b' || c = '\x0c'

/-- Suffix of the list after its last newline, if it has one. -/
def afterLastNewline : List Char → Option (List Char)
  | [] => none
  | c :: cs =>
    match afterLastNewline cs with
    | some t => some t
    | none => if c = '\n' then some cs else none

/-- Model of Python's `str.strip` on the character list. -/
def pyStripList (cs : List Char) : List Char :=
  ((cs.dropWhile pyIsSpace).reverse.dropWhile pyIsSpace).reverse

/-- Model of Python's `str.strip`: drop leading and trailing whitespace. -/
def pyStrip (s : String) : String := String.mk (pyStripList s.data)

/-- Try to match the separator regex (newline, greedy whitespace run,
newline) at the head of the input; on success return the input after the
match.  With backtracking, the match ends at the last newline inside the
maximal whitespace run that follows the first newline. -/
def matchSep : List Char → Option (List Char)
  | [] => none
  | c :: rest =>
    if c = '\n' then
      let p := rest.span pyIsSpace
      match afterLastNewline p.1 with
      | some leftover => some (leftover ++ p.2)
      | none => none
    else none

/-- Left-to-right splitting scan over the input: cut at every
non-overlapping leftmost separator match.  Fuel bounds the number of
steps; each step consumes at least one character. -/
def splitBlankAux : Nat → List Char → List Char → List (List Char)
  | _, acc, [] => [acc.reverse]
  | 0, acc, rest => [acc.reverse ++ rest]
  | Nat.succ fuel, acc, c :: cs =>
    match matchSep (c :: cs) with
    | some rest => acc.reverse :: splitBlankAux fuel [] rest
    | none => splitBlankAux fuel (c :: acc) cs

/-- Model of `re.split` on the blank-line pattern (newline, whitespace
run, newline) as used at main.py line 75. -/
def re_split_blank (s : String) : List String :=
  (splitBlankAux (s.data.length + 1) [] s.data).map String.mk

/-- The fallback paragraph list of main.py line 75: split on blank
lines, strip each piece, keep the non-empty ones. -/
def fallback_parts (text : String) : List String :=
  ((re_split_blank text).map pyStrip).filter (fun p => p != "")

/-- Fallback tiers of main.py lines 75-79: the stripped non-empty
paragraphs if there is at least one, otherwise the whole text as a
single scene. -/
def fallback_scenes (text : String) : List Json :=
  if (fallback_parts text).length ≥ 1 then (fallback_parts text).map Json.str
  else [Json.str text]

/-- Structured attempt of main.py lines 68-72: `json.loads(text)`, then
`parsed.get("scenes", [])`, accepted only when the result is a
non-empty list.  `none` is every path on which the try-block raises:
parse error, non-dict top level (`.get` raises `AttributeError`),
missing key (default `[]` has length 0), non-list value, empty list. -/
def structured_scenes (text : String) : Option (List Json) :=
  match json_loads text with
  | some (Json.obj ms) =>
    match dictGet ms "scenes" with
    | some (Json.arr xs) => if xs.length = 0 then none else some xs
    | _ => none
  | _ => none

/-- The `scenes` variable of main.py after line 79, before truncation:
the structured attempt if it succeeded, the fallback otherwise. -/
def candidate_scenes (text : String) : List Json :=
  match structured_scenes text with
  | some xs => xs
  | none => fallback_scenes text

/-- The Scene Normalizer (main.py lines 68-82): candidate scenes
truncated to the first 5 (`scenes[:5]`). -/
def generate_story_scenes (text : String) : List Json :=
  (candidate_scenes text).take 5

/-- Outcome of the story endpoint at the HTTP layer: a normal 200 JSON
body with the scene list, or an `HTTPException` with status and detail. -/
inductive StoryResult where
  | ok : Nat → List Json → StoryResult
  | httpError : Nat → String → StoryResult
deriving Repr

/-- Story handler `generate_story` (main.py lines 42-86).  The
collaborator argument models the Gemini call together with reading
`resp.text`: `Except.ok` carries the raw response text, `Except.error`
the message of any exception the call raised.  On success the handler
strips the text and normalizes it; on failure the outer except re-raises
an HTTP 500 with the prefixed message (line 86). -/
def generate_story (call : Except String String) : StoryResult :=
  match call with
  | Except.ok rawText => StoryResult.ok 200 (generate_story_scenes (pyStrip rawText))
  | Except.error e => StoryResult.httpError 500 ("Story generation failed: " ++ e)

/-- Outcome of the image endpoint at the HTTP layer: status and the
`image_url` field of the JSON body. -/
structure ImageResult where
  status : Nat
  image_url : String
deriving Repr

/-- The fixed placeholder URL of main.py line 110. -/
def placeholder_url : String := "https://via.placeholder.com/1024x768?text=Image+Unavailable"

/-- Image handler `generate_image` (main.py lines 88-111).  The
collaborator argument models the OpenAI call together with the
extraction `result.data[0].url`: `Except.ok` carries the URL,
`Except.error` the message of any exception raised inside the try.
Every failure is converted into a 200 response with the placeholder. -/
def generate_image (call : Except String String) : ImageResult :=
  match call with
  | Except.ok url => ImageResult.mk 200 url
  | Except.error _ => ImageResult.mk 200 placeholder_url

/-- Python truthiness test `not KEY` for an environment lookup result:
true when the variable is absent (`os.getenv` returned `None`) or empty. -/
def pyFalsyEnv : Option String → Bool
  | none => true
  | some s => s == ""

/-- Startup check of main.py lines 15-19: read both keys from the
environment and raise `RuntimeError` if either is falsy. -/
def startup_check (geminiKey openaiKey : Option String) : Except String Unit :=
  if pyFalsyEnv geminiKey || pyFalsyEnv openaiKey then
    Except.error "Set GEMINI_API_KEY and OPENAI_API_KEY in backend/.env"
  else Except.ok ()

/-- A request can only be accepted when module import (and hence the
startup check) succeeded: an exception at import time means the server
process never comes up. -/
def process_accepts_requests (geminiKey openaiKey : Option String) : Bool :=
  match startup_check geminiKey openaiKey with
  | Except.ok _ => true
  | Except.error _ => false

/-- Element test used to state the output-shape claims: a JSON string
value that is non-empty. -/
def isNonEmptyStr : Json → Bool
  | Json.str s => s != ""
  | _ => false

/-- The fallback tiers always produce at least one scene: either the
non-empty paragraph list or the single whole-text scene. -/
theorem fallback_scenes_len (text : String) : 1 ≤ (fallback_scenes text).length := by
  unfold fallback_scenes
  split
  · rename_i h
    simpa using h
  · simp

/-- A successful structured attempt carries a non-empty list. -/
theorem structured_scenes_len {text : String} {xs : List Json}
    (h : structured_scenes text = some xs) : 1 ≤ xs.length := by
  unfold structured_scenes at h
  repeat' split at h
  all_goals cases h
  all_goals omega

/-- The candidate scene list (before truncation) is never empty. -/
theorem candidate_scenes_len (text : String) : 1 ≤ (candidate_scenes text).length := by
  unfold candidate_scenes
  cases h : structured_scenes text with
  | none => exact fallback_scenes_len text
  | some xs => exact structured_scenes_len h

/-- Length bounds of the normalizer output. -/
theorem generate_story_scenes_len (text : String) :
    1 ≤ (generate_story_scenes text).length ∧ (generate_story_scenes text).length ≤ 5 := by
  unfold generate_story_scenes
  rw [List.length_take]
  have h := candidate_scenes_len text
  omega

/-- When the structured attempt yields the non-empty list `l`, the
candidate is `l` itself. -/
theorem structured_scenes_of {text : String} {ms : List (String × Json)} {l : List Json}
    (h1 : json_loads text = some (Json.obj ms))
    (h2 : dictGet ms "scenes" = some (Json.arr l))
    (h3 : l ≠ []) : structured_scenes text = some l := by
  simp [structured_scenes, h1, h2, List.length_eq_zero, h3]

/-- C1: the Scene Normalizer is a total function (no error is ever
signalled to the caller: it is defined for every input string) and its
result always has between 1 and 5 elements. -/
theorem spec_c1 (text : String) :
    1 ≤ (generate_story_scenes text).length ∧ (generate_story_scenes text).length ≤ 5 :=
  generate_story_scenes_len text

/-- C2: if the input parses as a JSON object whose key "scenes" holds a
non-empty list, the Normalizer returns exactly the first
min(n, 5) elements of that list, unchanged and in order. -/
theorem spec_c2 (text : String) (ms : List (String × Json)) (l : List Json)
    (h1 : json_loads text = some (Json.obj ms))
    (h2 : dictGet ms "scenes" = some (Json.arr l))
    (h3 : l ≠ []) :
    generate_story_scenes text = l.take 5 := by
  have hs := structured_scenes_of h1 h2 h3
  unfold generate_story_scenes candidate_scenes
  rw [hs]

/-- C2 witness: a concrete two-scene JSON input. -/
theorem spec_c2_witness :
    generate_story_scenes "\x7b\"scenes\": [\"a\", \"b\"]\x7d" =
      ([Json.str "a", Json.str "b"]).take 5 :=
  spec_c2 _ [("scenes", Json.arr [Json.str "a", Json.str "b"])]
    [Json.str "a", Json.str "b"] rfl rfl (List.cons_ne_nil _ _)

/-- C3: whenever the structured attempt fails for any of its reasons —
the text is not valid JSON, the parsed value is not a mapping, the key
"scenes" is missing, its value is not a sequence, or it is an empty
sequence — the Normalizer returns the (truncated) paragraph-splitting
fallback of the raw text, which is never empty. -/
theorem spec_c3 (text : String)
    (h : json_loads text = none ∨
      (∃ v, json_loads text = some v ∧ ∀ ms, v ≠ Json.obj ms) ∨
      (∃ ms, json_loads text = some (Json.obj ms) ∧ dictGet ms "scenes" = none) ∨
      (∃ ms v, json_loads text = some (Json.obj ms) ∧ dictGet ms "scenes" = some v ∧
        ∀ l, v ≠ Json.arr l) ∨
      (∃ ms, json_loads text = some (Json.obj ms) ∧
        dictGet ms "scenes" = some (Json.arr []))) :
    generate_story_scenes text = (fallback_scenes text).take 5 ∧
    1 ≤ (generate_story_scenes text).length := by
  have hs : structured_scenes text = none := by
    rcases h with h | ⟨v, hv, hno⟩ | ⟨ms, hm, hg⟩ | ⟨ms, v, hm, hg, hno⟩ | ⟨ms, hm, hg⟩
    · simp [structured_scenes, h]
    · cases v <;> simp_all [structured_scenes]
    · simp [structured_scenes, hm, hg]
    · cases v <;> simp_all [structured_scenes]
    · simp [structured_scenes, hm, hg]
  refine ⟨?_, (generate_story_scenes_len text).1⟩
  unfold generate_story_scenes candidate_scenes
  rw [hs]

/-- C3 witness: a plain non-JSON input falls through to the fallback. -/
theorem spec_c3_witness :
    generate_story_scenes "not json" = (fallback_scenes "not json").take 5 ∧
    1 ≤ (generate_story_scenes "not json").length :=
  spec_c3 "not json" (Or.inl rfl)

/-- C4 counterexample: the whitespace-only input has no blank-line
separator, yet the paragraph step yields zero segments (not one), and
the fallback result is the raw text, not the trimmed text. -/
theorem spec_c4_counterexample :
    re_split_blank " " = [" "] ∧ fallback_parts " " = [] ∧
    fallback_scenes " " ≠ [Json.str (pyStrip " ")] := by
  refine ⟨rfl, rfl, ?_⟩
  intro h
  rw [show fallback_scenes " " = [Json.str " "] from rfl,
    show pyStrip " " = "" from rfl] at h
  injection h with h1 h2
  injection h1 with h3
  exact absurd h3 (by decide)

/-- C4 (amended): the fallback splits on blank lines, strips the
segments, discards the empty ones and uses the result when at least one
segment remains; for input with no blank-line separator whose stripped
form is non-empty it yields exactly the stripped whole text and accepts
it, while for input whose stripped form is empty the paragraph step
yields nothing and the last-resort tier returns the raw text. -/
theorem spec_c4_amended (text : String) :
    (fallback_parts text ≠ [] →
      fallback_scenes text = (fallback_parts text).map Json.str) ∧
    (re_split_blank text = [text] → pyStrip text ≠ "" →
      fallback_parts text = [pyStrip text] ∧
      fallback_scenes text = [Json.str (pyStrip text)]) ∧
    (re_split_blank text = [text] → pyStrip text = "" →
      fallback_parts text = [] ∧ fallback_scenes text = [Json.str text]) := by
  refine ⟨?_, ?_, ?_⟩
  · intro h
    unfold fallback_scenes
    rw [if_pos]
    exact Nat.one_le_iff_ne_zero.mpr (by simpa using h)
  · intro hsep hne
    have hp : fallback_parts text = [pyStrip text] := by
      unfold fallback_parts
      rw [hsep]
      simp [hne]
    refine ⟨hp, ?_⟩
    unfold fallback_scenes
    rw [hp]
    simp
  · intro hsep hs0
    have hp : fallback_parts text = [] := by
      unfold fallback_parts
      rw [hsep]
      simp [hs0]
    refine ⟨hp, ?_⟩
    unfold fallback_scenes
    rw [hp]
    simp

/-- C4 witness: a single-block input is used as the one segment. -/
theorem spec_c4_witness :
    fallback_parts "hello" = [pyStrip "hello"] ∧
    fallback_scenes "hello" = [Json.str (pyStrip "hello")] :=
  (spec_c4_amended "hello").2.1 rfl (by decide)

/-- C5: whichever tier produced the candidate sequence, the Normalizer
output is exactly its first five elements in order, and for a candidate
longer than five the output has exactly five elements. -/
theorem spec_c5 (text : String) :
    generate_story_scenes text = (candidate_scenes text).take 5 ∧
    (5 < (candidate_scenes text).length →
      generate_story_scenes text = (candidate_scenes text).take 5 ∧
      (generate_story_scenes text).length = 5) := by
  refine ⟨rfl, fun h => ⟨rfl, ?_⟩⟩
  unfold generate_story_scenes
  rw [List.length_take]
  omega

/-- C5 witness: six paragraphs are truncated to five scenes. -/
theorem spec_c5_witness :
    generate_story_scenes "a\n\nb\n\nc\n\nd\n\ne\n\nf" =
      (candidate_scenes "a\n\nb\n\nc\n\nd\n\ne\n\nf").take 5 ∧
    (generate_story_scenes "a\n\nb\n\nc\n\nd\n\ne\n\nf").length = 5 :=
  ⟨(spec_c5 _).1, ((spec_c5 "a\n\nb\n\nc\n\nd\n\ne\n\nf").2 (by decide)).2⟩

/-- C6 is refuted as stated: a structured input whose scene list holds
a number, a null and an empty string is returned as-is, so the output
is not a sequence of non-empty strings. -/
theorem spec_c6_counterexample :
    generate_story_scenes "\x7b\"scenes\": [3, null, \"\"]\x7d" =
      [Json.num "3", Json.null, Json.str ""] ∧
    (generate_story_scenes "\x7b\"scenes\": [3, null, \"\"]\x7d").all isNonEmptyStr = false :=
  ⟨rfl, rfl⟩

/-- C6 (amended): the output always has 1 to 5 elements, and whenever
the structured attempt fails and the input is non-empty, every output
element is a non-empty string; structured-tier elements carry no such
guarantee since they are passed through unchanged. -/
theorem spec_c6_amended (text : String)
    (h1 : structured_scenes text = none) (h2 : text ≠ "") :
    (generate_story_scenes text).all isNonEmptyStr = true := by
  have hfb : (fallback_scenes text).all isNonEmptyStr = true := by
    unfold fallback_scenes
    split
    · rw [List.all_eq_true]
      intro x hx
      rw [List.mem_map] at hx
      obtain ⟨p, hp, rfl⟩ := hx
      unfold fallback_parts at hp
      rw [List.mem_filter] at hp
      simpa [isNonEmptyStr] using hp.2
    · simp [isNonEmptyStr, h2]
  unfold generate_story_scenes candidate_scenes
  rw [h1]
  rw [List.all_eq_true] at hfb ⊢
  intro x hx
  exact hfb x (List.take_subset _ _ hx)

/-- C6 witness: a non-JSON, non-empty input yields only non-empty
string scenes. -/
theorem spec_c6_witness :
    (generate_story_scenes "hi").all isNonEmptyStr = true :=
  spec_c6_amended "hi" rfl (by decide)

/-- C7: if the image collaborator call (including extraction of the
first result URL) raises any exception, the handler returns HTTP 200
with the fixed placeholder URL; the error is never surfaced. -/
theorem spec_c7 (e : String) :
    generate_image (Except.error e) =
      ImageResult.mk 200 "https://via.placeholder.com/1024x768?text=Image+Unavailable" := rfl

/-- C8: if the text collaborator call raises, the story handler reports
an HTTP 500 whose detail is the literal "Story generation failed: "
followed by the error message. -/
theorem spec_c8 (e : String) :
    generate_story (Except.error e) =
      StoryResult.httpError 500 ("Story generation failed: " ++ e) := rfl

/-- C9: if either environment secret is absent or empty, startup raises
the configured error and the process never accepts a request. -/
theorem spec_c9 (g o : Option String)
    (h : g = none ∨ g = some "" ∨ o = none ∨ o = some "") :
    startup_check g o =
      Except.error "Set GEMINI_API_KEY and OPENAI_API_KEY in backend/.env" ∧
    process_accepts_requests g o = false := by
  have hb : (pyFalsyEnv g || pyFalsyEnv o) = true := by
    rcases h with rfl | rfl | rfl | rfl <;> simp [pyFalsyEnv]
  have hs : startup_check g o =
      Except.error "Set GEMINI_API_KEY and OPENAI_API_KEY in backend/.env" := by
    unfold startup_check
    rw [if_pos hb]
  refine ⟨hs, ?_⟩
  unfold process_accepts_requests
  rw [hs]

/-- C9 witness: a missing text-service key aborts startup. -/
theorem spec_c9_witness :
    startup_check none (some "k") =
      Except.error "Set GEMINI_API_KEY and OPENAI_API_KEY in backend/.env" ∧
    process_accepts_requests none (some "k") = false :=
  spec_c9 none (some "k") (Or.inl rfl)

/-- C10: the structured tier does no validation of the individual list
elements: the output is the plain five-element truncation of the parsed
list, every output element is one of the parsed elements unchanged, and
position by position the output agrees with the parsed list. -/
theorem spec_c10 (text : String) (ms : List (String × Json)) (l : List Json)
    (h1 : json_loads text = some (Json.obj ms))
    (h2 : dictGet ms "scenes" = some (Json.arr l))
    (h3 : l ≠ []) :
    (generate_story_scenes text).length = min 5 l.length ∧
    (∀ j ∈ generate_story_scenes text, j ∈ l) ∧
    ∀ i, i < 5 → (generate_story_scenes text)[i]? = l[i]? := by
  have hs := structured_scenes_of h1 h2 h3
  have he : generate_story_scenes text = l.take 5 := by
    unfold generate_story_scenes candidate_scenes
    rw [hs]
  refine ⟨?_, ?_, ?_⟩
  · rw [he, List.length_take]
  · intro j hj
    rw [he] at hj
    exact List.take_subset _ _ hj
  · intro i hi
    rw [he, List.getElem?_take, if_pos hi]

/-- C10 witness: a scene list holding a number, null, an object and an
empty string is passed through unchanged. -/
theorem spec_c10_witness :
    (generate_story_scenes "\x7b\"scenes\": [1, null, \x7b\x7d, \"\"]\x7d").length =
      min 5 ([Json.num "1", Json.null, Json.obj [], Json.str ""] : List Json).length :=
  (spec_c10 "\x7b\"scenes\": [1, null, \x7b\x7d, \"\"]\x7d"
    [("scenes", Json.arr [Json.num "1", Json.null, Json.obj [], Json.str ""])]
    [Json.num "1", Json.null, Json.obj [], Json.str ""] rfl rfl (List.cons_ne_nil _ _)).1
